import Mathlib

/-!
Shallow embedding of the game-state engine of `src/src/App.tsx` (SumGame).

The source is a React component; its engine consists of the pure helpers
`generateTarget`, `initGrid`, `addRow`, the per-column compaction loop inside
`checkSum`, and the state transitions performed by `handleBlockClick`,
`checkSum` and the timer `useEffect`.  React `useState` fields become the
fields of `GameState`; each handler becomes a function `GameState → GameState`
(or `Option GameState` where the JS code can throw).

Randomness: every call to `Math.floor(Math.random() * (MAX - MIN + 1)) + MIN`
produces an arbitrary integer in `[MIN, MAX]`; we model each draw by a `seed`
argument reduced modulo `MAX - MIN + 1`.  Tile `id`s
(`Math.random().toString(36).substring(2, 9)`) are opaque identifiers used only
by the presentation layer; we model them as `Nat`, supplied by the caller.
-/

set_option maxRecDepth 4000

namespace SumGame

/-- Model of `enum GameMode { CLASSIC, TIME }` from the source. -/
inductive GameMode where
  | CLASSIC
  | TIME
deriving DecidableEq, Repr

/-- Model of `interface Block { id: string; value: number; isNew?: boolean }`.
The optional `isNew` (absent = `undefined`, falsy) is modelled as a `Bool`
defaulting to `false`; the string `id` is modelled as an opaque `Nat`. -/
structure Block where
  id : Nat
  value : Nat
  isNew : Bool := false
deriving DecidableEq, Repr

/-- Model of `type Grid = (Block | null)[][]` : a list of rows, row 0 at the top;
`null` is `none`. -/
abbrev Grid := List (List (Option Block))

-- --- Constants (lines 24-31 of App.tsx) ---
def GRID_WIDTH : Nat := 6
def GRID_HEIGHT : Nat := 6
def INITIAL_ROWS : Nat := 3
def TARGET_MIN : Nat := 10
def TARGET_MAX : Nat := 25
def NUMBER_MIN : Nat := 1
def NUMBER_MAX : Nat := 9
def TIME_LIMIT : Nat := 15

/-- Source `generateTarget`: `Math.floor(Math.random() * (TARGET_MAX - TARGET_MIN + 1)) + TARGET_MIN`;
the floor of the scaled random draw is an arbitrary integer in
`[0, TARGET_MAX - TARGET_MIN]`, modelled by `seed % (TARGET_MAX - TARGET_MIN + 1)`. -/
def generateTarget (seed : Nat) : Nat :=
  seed % (TARGET_MAX - TARGET_MIN + 1) + TARGET_MIN

/-- The tile-value draw used by `initGrid` and `addRow`:
`Math.floor(Math.random() * (NUMBER_MAX - NUMBER_MIN + 1)) + NUMBER_MIN`. -/
def generateValue (seed : Nat) : Nat :=
  seed % (NUMBER_MAX - NUMBER_MIN + 1) + NUMBER_MIN

/-- Read `grid[r][c]`, as done where the source has already ensured the
indices are in range (out-of-range reads of a JS array yield `undefined`,
i.e. `none`, provided the row index is in range). -/
def getCell (g : Grid) (r c : Nat) : Option Block :=
  (g.getD r []).getD c none

/-- Write `grid[r][c] = v` (out-of-range writes are modelled as no-ops;
the engine only ever writes in-range cells). -/
def setCell (g : Grid) (r c : Nat) (v : Option Block) : Grid :=
  g.set r ((g.getD r []).set c v)

/-- Source `initGrid` (lines 86-100): a `GRID_HEIGHT × GRID_WIDTH` all-`null` grid
whose rows `GRID_HEIGHT - INITIAL_ROWS .. GRID_HEIGHT - 1` are then filled
with freshly generated tiles.  `idOf r c` / `vOf r c` supply the random draws
for cell `(r, c)`. -/
def initGrid (idOf vOf : Nat → Nat → Nat) : Grid :=
  (List.range GRID_HEIGHT).map (fun r =>
    (List.range GRID_WIDTH).map (fun c =>
      if GRID_HEIGHT - INITIAL_ROWS ≤ r then
        some { id := idOf r c, value := generateValue (vOf r c) }
      else
        none))

/-- The fresh bottom row built by `addRow` (lines 113-117): `GRID_WIDTH`
tiles, each `{ id: generateId(), value: random in [1,9], isNew: true }`.
`idBase + c` models the fresh distinct ids; `seeds` supplies the value draws. -/
def newBottomRow (idBase : Nat) (seeds : List Nat) : List (Option Block) :=
  (List.range GRID_WIDTH).map (fun c =>
    some { id := idBase + c, value := generateValue (seeds.getD c 0), isNew := true })

/-- Source `addRow` (lines 102-120).  If row 0 has any non-`null` cell it sets the
game-over flag and returns the grid unchanged; the returned `Bool` is `true`
exactly when `setIsGameOver(true)` was called.  Otherwise `newGrid[r] =
newGrid[r+1]` for `r = 0 .. GRID_HEIGHT-2` (each row receives the original
row below it, since rows are overwritten top-down) and the bottom row is
replaced by `GRID_WIDTH` fresh tiles: on a grid of exactly `GRID_HEIGHT` rows
this is `drop 1` followed by appending the new bottom row. -/
def addRow (idBase : Nat) (seeds : List Nat) (g : Grid) : Grid × Bool :=
  if (g.headD []).any (fun cell => cell.isSome) then
    (g, true)
  else
    (g.drop 1 ++ [newBottomRow idBase seeds], false)

/-- The `useState` fields of the component that belong to the game engine
(`mode` is fixed non-`null` for a running session). -/
structure GameState where
  mode : GameMode
  grid : Grid
  selected : List (Nat × Nat)
  target : Nat
  score : Nat
  timeLeft : Nat
  isGameOver : Bool
  isPaused : Bool
deriving DecidableEq, Repr

/-- Source `startGame` (lines 122-131); `idOf`/`vOf`/`tseed` supply the random draws
consumed by `initGrid` and `generateTarget`. -/
def startGame (m : GameMode) (idOf vOf : Nat → Nat → Nat) (tseed : Nat) : GameState :=
  { mode := m
    grid := initGrid idOf vOf
    target := generateTarget tseed
    score := 0
    timeLeft := TIME_LIMIT
    isGameOver := false
    isPaused := false
    selected := [] }

/-- Source `handleBlockClick` (lines 133-144).  Returns `none` where the JS code
throws: `const block = grid[r][c]` evaluates `grid[r]` first, and when `r` is
out of range that is `undefined`, so the subscript `[c]` raises a
`TypeError`.  When `r` is in range but `c` is not, `grid[r][c]` is
`undefined`, which falls into the `if (!block) return` silent no-op. -/
def handleBlockClick (st : GameState) (r c : Nat) : Option GameState :=
  if st.isGameOver || st.isPaused then some st
  else
    match st.grid[r]? with
    | none => none
    | some row =>
      match row.getD c none with
      | none => some st
      | some _ =>
        if st.selected.any (fun s => s.1 == r && s.2 == c) then
          some { st with selected := st.selected.filter (fun s => !(s.1 == r && s.2 == c)) }
        else
          some { st with selected := st.selected ++ [(r, c)] }

/-- Model of `selected.reduce((acc, s) => acc + (grid[s.r][s.c]?.value || 0), 0)`
(line 149); a missing cell contributes 0. -/
def selectionSum (g : Grid) (sel : List (Nat × Nat)) : Nat :=
  sel.foldl (fun acc s => acc + ((getCell g s.1 s.2).map Block.value).getD 0) 0

/-- Model of `selected.forEach(s => { newGrid[s.r][s.c] = null })` (lines 153-155). -/
def removeSelected (g : Grid) (sel : List (Nat × Nat)) : Grid :=
  sel.foldl (fun acc s => setCell acc s.1 s.2 none) g

/-- Column `c` of the grid, top to bottom, as traversed by the compaction
loop (`newGrid[r][c]` for `r = 0 .. GRID_HEIGHT-1`). -/
def getColumn (g : Grid) (c : Nat) : List (Option Block) :=
  g.map (fun row => row.getD c none)

/-- The effect of the inner compaction loop (lines 158-166) on one column:
scanning `r` from the bottom up, each non-`null` cell is moved down to the
lowest still-free row (`emptyRow`, decremented after each move).  The result
packs the column's tiles at the bottom in their original top-to-bottom order,
with `null` above them. -/
def compactColumn (col : List (Option Block)) : List (Option Block) :=
  let tiles := col.filterMap (fun x => x)
  List.replicate (col.length - tiles.length) none ++ tiles.map some

/-- The whole compaction loop (lines 157-167): every column `c < GRID_WIDTH`
is compacted independently; rows keep their `GRID_HEIGHT × GRID_WIDTH`
shape. -/
def compact (g : Grid) : Grid :=
  (List.range GRID_HEIGHT).map (fun r =>
    (List.range GRID_WIDTH).map (fun c =>
      (compactColumn (getColumn g c)).getD r none))

/-- Source `checkSum` (lines 148-186).  `tseed` feeds `generateTarget`; `idBase` and
`seeds` feed `addRow` in the CLASSIC branch.  The overshoot branch resolves
the 400 ms `setTimeout` (which only resets the selection): the state after
the feedback delay has `selected = []`. -/
def checkSum (tseed idBase : Nat) (seeds : List Nat) (st : GameState) : GameState :=
  let currentSum := selectionSum st.grid st.selected
  if currentSum = st.target then
    let cleared := removeSelected st.grid st.selected
    let compacted := compact cleared
    let st1 := { st with
      score := st.score + st.selected.length * 10
      selected := []
      target := generateTarget tseed }
    match st.mode with
    | GameMode.CLASSIC =>
      let res := addRow idBase seeds compacted
      { st1 with grid := res.1, isGameOver := st1.isGameOver || res.2 }
    | GameMode.TIME =>
      { st1 with grid := compacted, timeLeft := TIME_LIMIT }
  else if currentSum > st.target then
    { st with selected := [] }
  else
    st

/-- One firing of the `setInterval` callback (lines 196-204).  The interval
only exists while `mode === TIME && !isGameOver && !isPaused` (the effect's
guard, lines 195 and 205-207); a tick in any other state is the identity.
When `prev <= 1` the callback injects a row and resets the clock to
`TIME_LIMIT`; otherwise it decrements. -/
def tick (idBase : Nat) (seeds : List Nat) (st : GameState) : GameState :=
  if st.mode = GameMode.TIME ∧ st.isGameOver = false ∧ st.isPaused = false then
    if st.timeLeft ≤ 1 then
      let res := addRow idBase seeds st.grid
      { st with grid := res.1, isGameOver := st.isGameOver || res.2, timeLeft := TIME_LIMIT }
    else
      { st with timeLeft := st.timeLeft - 1 }
  else st

/-! ### Generic list helpers -/

theorem getD_set_ne {α : Type} (l : List α) (i j : Nat) (a d : α) (h : i ≠ j) :
    (l.set i a).getD j d = l.getD j d := by
  simp [List.getD_eq_getElem?_getD, List.getElem?_set_ne h]

theorem getD_set_self {α : Type} (l : List α) (i : Nat) (a d : α) (h : i < l.length) :
    (l.set i a).getD i d = a := by
  simp [List.getD_eq_getElem?_getD, List.getElem?_set_self h]

theorem map_range_getD {α : Type} (l : List α) (d : α) :
    (List.range l.length).map (fun i => l.getD i d) = l := by
  apply List.ext_getElem
  · simp
  · intro i h1 h2
    simp [List.getD_eq_getElem?_getD, List.getElem?_eq_getElem h2]

/-! ### Cell read/write lemmas -/

theorem length_setCell (g : Grid) (r c : Nat) (v : Option Block) :
    (setCell g r c v).length = g.length := by
  simp [setCell]

theorem setCell_oob (g : Grid) (r c : Nat) (v : Option Block) (h : g.length ≤ r) :
    setCell g r c v = g :=
  List.set_eq_of_length_le h

theorem getRow_setCell_ne (g : Grid) (r c i : Nat) (v : Option Block) (h : r ≠ i) :
    (setCell g r c v).getD i [] = g.getD i [] :=
  getD_set_ne g r i _ [] h

theorem getRow_setCell_self (g : Grid) (r c : Nat) (v : Option Block) (h : r < g.length) :
    (setCell g r c v).getD r [] = (g.getD r []).set c v :=
  getD_set_self g r _ [] h

theorem rowLen_setCell (g : Grid) (r c i : Nat) (v : Option Block) :
    ((setCell g r c v).getD i []).length = (g.getD i []).length := by
  by_cases hri : r = i
  · subst hri
    by_cases hr : r < g.length
    · rw [getRow_setCell_self g r c v hr, List.length_set]
    · rw [setCell_oob g r c v (Nat.le_of_not_lt hr)]
  · rw [getRow_setCell_ne g r c i v hri]

theorem getCell_setCell_self (g : Grid) (r c : Nat) (v : Option Block)
    (hr : r < g.length) (hc : c < (g.getD r []).length) :
    getCell (setCell g r c v) r c = v := by
  unfold getCell
  rw [getRow_setCell_self g r c v hr, getD_set_self _ c v none hc]

theorem getCell_setCell_ne (g : Grid) (r c r' c' : Nat) (v : Option Block)
    (h : ¬(r = r' ∧ c = c')) :
    getCell (setCell g r c v) r' c' = getCell g r' c' := by
  unfold getCell
  by_cases hr : r = r'
  · subst hr
    have hc : c ≠ c' := fun e => h ⟨rfl, e⟩
    by_cases hlen : r < g.length
    · rw [getRow_setCell_self g r c v hlen, getD_set_ne _ c c' v none hc]
    · rw [setCell_oob g r c v (Nat.le_of_not_lt hlen)]
  · rw [getRow_setCell_ne g r c r' v hr]

/-! ### `removeSelected` lemmas -/

theorem removeSelected_cons (g : Grid) (s : Nat × Nat) (rest : List (Nat × Nat)) :
    removeSelected g (s :: rest) = removeSelected (setCell g s.1 s.2 none) rest :=
  rfl

theorem length_removeSelected (g : Grid) (sel : List (Nat × Nat)) :
    (removeSelected g sel).length = g.length := by
  induction sel generalizing g with
  | nil => rfl
  | cons s rest ih =>
    rw [removeSelected_cons, ih, length_setCell]

theorem rowLen_removeSelected (g : Grid) (sel : List (Nat × Nat)) (i : Nat) :
    ((removeSelected g sel).getD i []).length = (g.getD i []).length := by
  induction sel generalizing g with
  | nil => rfl
  | cons s rest ih =>
    rw [removeSelected_cons, ih, rowLen_setCell]

theorem getCell_removeSelected (g : Grid) (sel : List (Nat × Nat)) (r c : Nat)
    (hr : r < g.length) (hc : c < (g.getD r []).length) :
    getCell (removeSelected g sel) r c =
      if (r, c) ∈ sel then none else getCell g r c := by
  induction sel generalizing g with
  | nil => simp [removeSelected]
  | cons s rest ih =>
    rw [removeSelected_cons]
    have hr' : r < (setCell g s.1 s.2 none).length := by
      rw [length_setCell]; exact hr
    have hc' : c < ((setCell g s.1 s.2 none).getD r []).length := by
      rw [rowLen_setCell]; exact hc
    rw [ih _ hr' hc']
    by_cases hmem : (r, c) ∈ rest
    · simp [hmem]
    · by_cases hs : s = (r, c)
      · subst hs
        rw [if_neg hmem, if_pos (List.mem_cons_self _ _)]
        exact getCell_setCell_self g r c none hr hc
      · have hne : ¬(s.1 = r ∧ s.2 = c) := by
          intro ⟨h1, h2⟩
          exact hs (Prod.ext h1 h2)
        have hrc : ¬((r, c) = s ∨ (r, c) ∈ rest) := by
          rintro (h1 | h2)
          · exact hs h1.symm
          · exact hmem h2
        simp only [List.mem_cons, if_neg hrc, if_neg hmem]
        exact getCell_setCell_ne g s.1 s.2 r c none hne

/-! ### Compaction lemmas -/

theorem compactColumn_def (col : List (Option Block)) :
    compactColumn col =
      List.replicate (col.length - (col.filterMap (fun x => x)).length) none
        ++ (col.filterMap (fun x => x)).map some :=
  rfl

theorem length_compactColumn (col : List (Option Block)) :
    (compactColumn col).length = col.length := by
  have h := List.length_filterMap_le (fun (x : Option Block) => x) col
  rw [compactColumn_def]
  simp only [List.length_append, List.length_replicate, List.length_map]
  omega

theorem filterMap_compactColumn (col : List (Option Block)) :
    (compactColumn col).filterMap (fun x => x) = col.filterMap (fun x => x) := by
  rw [compactColumn_def, List.filterMap_append,
    List.filterMap_replicate_of_none rfl, List.filterMap_map]
  simp [Function.comp_def, List.filterMap_some]

theorem compactColumn_idem (col : List (Option Block)) :
    compactColumn (compactColumn col) = compactColumn col := by
  rw [compactColumn_def (compactColumn col), filterMap_compactColumn,
    length_compactColumn, ← compactColumn_def]

theorem getD_compactColumn_of_lt (col : List (Option Block)) (i : Nat)
    (hi : i < col.length - (col.filterMap (fun x => x)).length) :
    (compactColumn col).getD i none = none := by
  rw [compactColumn_def,
    List.getD_append _ _ none i (by simpa using hi)]
  simp [List.getD_eq_getElem?_getD, List.getElem?_replicate, hi]

theorem getD_compactColumn_of_ge (col : List (Option Block)) (i : Nat)
    (h1 : col.length - (col.filterMap (fun x => x)).length ≤ i)
    (h2 : i < col.length) :
    (compactColumn col).getD i none =
      some ((col.filterMap (fun x => x)).getD
        (i - (col.length - (col.filterMap (fun x => x)).length)) { id := 0, value := 0 }) := by
  have hle := List.length_filterMap_le (fun (x : Option Block) => x) col
  rw [compactColumn_def,
    List.getD_append_right _ _ none i (by simpa using h1)]
  simp only [List.length_replicate]
  have hlt : i - (col.length - (col.filterMap (fun x => x)).length)
      < (col.filterMap (fun x => x)).length := by omega
  rw [List.getD_eq_getElem _ _ (by simpa using hlt), List.getElem_map,
    List.getD_eq_getElem _ _ hlt]

theorem compactColumn_noGap (col : List (Option Block)) (i j : Nat)
    (hij : i ≤ j) (hj : j < col.length)
    (hi : (compactColumn col).getD i none ≠ none) :
    (compactColumn col).getD j none ≠ none := by
  by_cases h : i < col.length - (col.filterMap (fun x => x)).length
  · exact absurd (getD_compactColumn_of_lt col i h) hi
  · rw [getD_compactColumn_of_ge col j (by omega) hj]
    exact Option.some_ne_none _

theorem length_compact (g : Grid) : (compact g).length = GRID_HEIGHT := by
  simp [compact]

theorem getElem_compact (g : Grid) (r : Nat) (h : r < (compact g).length) :
    (compact g)[r] = (List.range GRID_WIDTH).map
      (fun c => (compactColumn (getColumn g c)).getD r none) := by
  simp [compact]

theorem getColumn_compact (g : Grid) (c : Nat)
    (hg : g.length = GRID_HEIGHT) (hc : c < GRID_WIDTH) :
    getColumn (compact g) c = compactColumn (getColumn g c) := by
  have hlen : (compactColumn (getColumn g c)).length = GRID_HEIGHT := by
    rw [length_compactColumn]
    simpa [getColumn] using hg
  show (compact g).map (fun row => row.getD c none) = compactColumn (getColumn g c)
  apply List.ext_getElem
  · simp [length_compact, hlen]
  · intro i h1 h2
    rw [List.getElem_map, getElem_compact g i (by simpa using h1)]
    have hrow : (List.map (fun c' => (compactColumn (getColumn g c')).getD i none)
        (List.range GRID_WIDTH)).getD c none
        = (compactColumn (getColumn g c)).getD i none := by
      rw [List.getD_eq_getElem _ _ (by simpa using hc)]
      simp
    rw [hrow, List.getD_eq_getElem _ _ h2]

theorem compact_congr_columns (g g' : Grid)
    (h : ∀ c < GRID_WIDTH, compactColumn (getColumn g c) = compactColumn (getColumn g' c)) :
    compact g = compact g' := by
  unfold compact
  apply List.map_congr_left
  intro r _
  apply List.map_congr_left
  intro c hc
  rw [h c (List.mem_range.mp hc)]

/-! ### Random-draw range lemmas -/

theorem generateValue_range (seed : Nat) :
    NUMBER_MIN ≤ generateValue seed ∧ generateValue seed ≤ NUMBER_MAX := by
  unfold generateValue NUMBER_MIN NUMBER_MAX
  omega

theorem generateTarget_range (seed : Nat) :
    TARGET_MIN ≤ generateTarget seed ∧ generateTarget seed ≤ TARGET_MAX := by
  unfold generateTarget TARGET_MIN TARGET_MAX
  omega

/-! ### Grid shape helpers -/

theorem rowLen_of_dims (g : Grid) (hg : g.length = GRID_HEIGHT)
    (hw : ∀ row ∈ g, row.length = GRID_WIDTH) (r : Nat) (hr : r < GRID_HEIGHT) :
    (g.getD r []).length = GRID_WIDTH := by
  have hr' : r < g.length := by rw [hg]; exact hr
  rw [List.getD_eq_getElem _ _ hr']
  exact hw _ (List.getElem_mem ..)

/-! ### `addRow` lemmas -/

theorem addRow_over (idBase : Nat) (seeds : List Nat) (g : Grid)
    (h : (g.headD []).any (fun cell => cell.isSome) = true) :
    addRow idBase seeds g = (g, true) := by
  unfold addRow
  rw [if_pos h]

theorem addRow_not_over (idBase : Nat) (seeds : List Nat) (g : Grid)
    (h : (g.headD []).any (fun cell => cell.isSome) = false) :
    addRow idBase seeds g = (g.drop 1 ++ [newBottomRow idBase seeds], false) := by
  unfold addRow
  rw [if_neg (by rw [h]; simp)]

theorem row0_any_iff (g : Grid) (hg : g.length = GRID_HEIGHT)
    (hw : ∀ row ∈ g, row.length = GRID_WIDTH) :
    ((g.headD []).any (fun cell => cell.isSome) = true
      ↔ ∃ c < GRID_WIDTH, getCell g 0 c ≠ none) := by
  cases g with
  | nil => simp [GRID_HEIGHT] at hg
  | cons row0 rest =>
    have hrow0 : row0.length = GRID_WIDTH := hw row0 (List.mem_cons_self _ _)
    have hcell : ∀ c : Nat, getCell (row0 :: rest) 0 c = row0.getD c none := by
      intro c
      unfold getCell
      rw [List.getD_cons_zero]
    simp only [List.headD_cons, List.any_eq_true]
    constructor
    · rintro ⟨x, hx, hsome⟩
      obtain ⟨i, hi, hix⟩ := List.mem_iff_getElem.mp hx
      refine ⟨i, by rw [← hrow0]; exact hi, ?_⟩
      rw [hcell i, List.getD_eq_getElem _ _ hi, hix]
      exact Option.isSome_iff_ne_none.mp hsome
    · rintro ⟨c, hc, hne⟩
      rw [hcell c] at hne
      have hc' : c < row0.length := by rw [hrow0]; exact hc
      refine ⟨row0.getD c none, ?_, Option.isSome_iff_ne_none.mpr hne⟩
      rw [List.getD_eq_getElem _ _ hc']
      exact List.getElem_mem ..

theorem getD_shift (g : Grid) (nr : List (Option Block)) (i : Nat)
    (hg : g.length = GRID_HEIGHT) (hi : i < GRID_HEIGHT - 1) :
    (g.drop 1 ++ [nr]).getD i [] = g.getD (i + 1) [] := by
  have h1 : i < (g.drop 1).length := by
    rw [List.length_drop, hg]
    exact hi
  have h2 : i + 1 < g.length := by
    rw [hg]
    unfold GRID_HEIGHT at hi ⊢
    omega
  rw [List.getD_append _ _ [] i h1, List.getD_eq_getElem _ _ h1,
    List.getElem_drop, List.getD_eq_getElem _ _ h2]
  congr 1
  omega

theorem getD_shift_bottom (g : Grid) (nr : List (Option Block))
    (hg : g.length = GRID_HEIGHT) :
    (g.drop 1 ++ [nr]).getD (GRID_HEIGHT - 1) [] = nr := by
  have h1 : (g.drop 1).length = GRID_HEIGHT - 1 := by
    rw [List.length_drop, hg]
  rw [List.getD_append_right _ _ [] _ (Nat.le_of_eq h1), h1, Nat.sub_self]
  rfl

theorem length_newBottomRow (idBase : Nat) (seeds : List Nat) :
    (newBottomRow idBase seeds).length = GRID_WIDTH := by
  simp [newBottomRow]

theorem getD_newBottomRow (idBase : Nat) (seeds : List Nat) (c : Nat) (hc : c < GRID_WIDTH) :
    (newBottomRow idBase seeds).getD c none =
      some { id := idBase + c, value := generateValue (seeds.getD c 0), isNew := true } := by
  unfold newBottomRow
  rw [List.getD_eq_getElem _ _ (by simpa using hc)]
  simp

/-! ### `initGrid` lemmas -/

theorem length_initGrid (idOf vOf : Nat → Nat → Nat) :
    (initGrid idOf vOf).length = GRID_HEIGHT := by
  simp [initGrid]

theorem rowLen_initGrid (idOf vOf : Nat → Nat → Nat) :
    ∀ row ∈ initGrid idOf vOf, row.length = GRID_WIDTH := by
  intro row hrow
  simp only [initGrid, List.mem_map, List.mem_range] at hrow
  obtain ⟨r, _, rfl⟩ := hrow
  simp

theorem getCell_initGrid (idOf vOf : Nat → Nat → Nat) (r c : Nat)
    (hr : r < GRID_HEIGHT) (hc : c < GRID_WIDTH) :
    getCell (initGrid idOf vOf) r c =
      if GRID_HEIGHT - INITIAL_ROWS ≤ r then
        some { id := idOf r c, value := generateValue (vOf r c) }
      else none := by
  have hr' : r < (initGrid idOf vOf).length := by
    rw [length_initGrid]; exact hr
  unfold getCell
  rw [List.getD_eq_getElem _ _ hr']
  have hrow : (initGrid idOf vOf).get ⟨r, hr'⟩ = (List.range GRID_WIDTH).map (fun c =>
      if GRID_HEIGHT - INITIAL_ROWS ≤ r then
        some { id := idOf r c, value := generateValue (vOf r c) }
      else none) := by
    simp [initGrid]
  rw [List.get_eq_getElem] at hrow
  rw [hrow, List.getD_eq_getElem _ _ (by simpa using hc)]
  simp only [List.getElem_map, List.getElem_range]

/-! ### Concrete states used by the witnesses -/

/-- A concrete fresh-game 6×6 grid: tile at `(r, c)` has id `6*r + c` and
value drawn from seed `r + c`. -/
def sampleGrid : Grid := initGrid (fun r c => 6 * r + c) (fun r c => r + c)

/-- A concrete running CLASSIC game: the fresh grid, target 9, and the two
tiles `(3,0)` (value 4) and `(4,0)` (value 5) selected, so the selection sums
exactly to the target. -/
def sampleState : GameState :=
  { startGame GameMode.CLASSIC (fun r c => 6 * r + c) (fun r c => r + c) 0 with
      target := 9, selected := [(3, 0), (4, 0)] }

/-- The same position in TIME mode with 7 seconds left. -/
def sampleTimeState : GameState :=
  { sampleState with mode := GameMode.TIME, timeLeft := 7 }

theorem length_getColumn (g : Grid) (c : Nat) : (getColumn g c).length = g.length := by
  simp [getColumn]

/-- A concrete grid with holes (three tiles knocked out of `sampleGrid`),
used to witness the compaction claims on a non-trivial input. -/
def sampleHoleyGrid : Grid := removeSelected sampleGrid [(4, 0), (5, 2), (3, 1)]

/-! ### Claim theorems -/

/-- C1: `addRow` signals game-over iff row 0 contains at least one non-empty
cell, and returns the grid unchanged in that case; otherwise every row
`i ≤ GRID_HEIGHT - 2` receives the former contents of row `i + 1` and the
bottom row is replaced by `GRID_WIDTH` freshly generated tiles, each with
value in `[1, 9]` and `isNew = true`. -/
theorem c1_addRow_spec (idBase : Nat) (seeds : List Nat) (g : Grid)
    (hg : g.length = GRID_HEIGHT) (hw : ∀ row ∈ g, row.length = GRID_WIDTH) :
    ((addRow idBase seeds g).2 = true ↔ ∃ c < GRID_WIDTH, getCell g 0 c ≠ none) ∧
    ((addRow idBase seeds g).2 = true → (addRow idBase seeds g).1 = g) ∧
    ((addRow idBase seeds g).2 = false →
      (∀ i < GRID_HEIGHT - 1, (addRow idBase seeds g).1.getD i [] = g.getD (i + 1) []) ∧
      (addRow idBase seeds g).1.getD (GRID_HEIGHT - 1) [] = newBottomRow idBase seeds ∧
      (newBottomRow idBase seeds).length = GRID_WIDTH ∧
      (∀ c < GRID_WIDTH, ∃ b : Block,
        (newBottomRow idBase seeds).getD c none = some b ∧
        NUMBER_MIN ≤ b.value ∧ b.value ≤ NUMBER_MAX ∧ b.isNew = true)) := by
  cases hb : (g.headD []).any (fun cell => cell.isSome) with
  | true =>
    rw [addRow_over idBase seeds g hb]
    exact ⟨⟨fun _ => (row0_any_iff g hg hw).mp hb, fun _ => rfl⟩,
      fun _ => rfl, fun hf => absurd hf (by simp)⟩
  | false =>
    rw [addRow_not_over idBase seeds g hb]
    refine ⟨⟨fun hf => absurd hf (by simp), ?_⟩, fun hf => absurd hf (by simp), ?_⟩
    · intro hex
      have h1 := (row0_any_iff g hg hw).mpr hex
      rw [hb] at h1
      exact h1
    · intro _
      refine ⟨fun i hi => getD_shift g _ i hg hi, getD_shift_bottom g _ hg,
        length_newBottomRow idBase seeds, fun c hc => ?_⟩
      exact ⟨_, getD_newBottomRow idBase seeds c hc,
        (generateValue_range _).1, (generateValue_range _).2, rfl⟩

/-- Witness for C1 at the concrete grid `sampleGrid`,
with fresh ids from 100 and value seeds `[0, 1, 2, 3, 4, 5]`. -/
theorem c1_addRow_spec_witness :
    (sampleGrid.length = GRID_HEIGHT ∧ (∀ row ∈ sampleGrid, row.length = GRID_WIDTH)) ∧
    (((addRow 100 [0, 1, 2, 3, 4, 5] sampleGrid).2 = true
        ↔ ∃ c < GRID_WIDTH, getCell sampleGrid 0 c ≠ none) ∧
     ((addRow 100 [0, 1, 2, 3, 4, 5] sampleGrid).2 = true →
        (addRow 100 [0, 1, 2, 3, 4, 5] sampleGrid).1 = sampleGrid) ∧
     ((addRow 100 [0, 1, 2, 3, 4, 5] sampleGrid).2 = false →
       (∀ i < GRID_HEIGHT - 1,
         (addRow 100 [0, 1, 2, 3, 4, 5] sampleGrid).1.getD i [] = sampleGrid.getD (i + 1) []) ∧
       (addRow 100 [0, 1, 2, 3, 4, 5] sampleGrid).1.getD (GRID_HEIGHT - 1) []
         = newBottomRow 100 [0, 1, 2, 3, 4, 5] ∧
       (newBottomRow 100 [0, 1, 2, 3, 4, 5]).length = GRID_WIDTH ∧
       (∀ c < GRID_WIDTH, ∃ b : Block,
         (newBottomRow 100 [0, 1, 2, 3, 4, 5]).getD c none = some b ∧
         NUMBER_MIN ≤ b.value ∧ b.value ≤ NUMBER_MAX ∧ b.isNew = true))) :=
  ⟨⟨by decide, by decide⟩,
    c1_addRow_spec 100 [0, 1, 2, 3, 4, 5] sampleGrid (by decide) (by decide)⟩

/-- C3: for every 6-row grid and every column `c < GRID_WIDTH`, compaction
acts on column `c` as a function of column `c` only, preserves the sequence
(hence the multiset and the top-to-bottom order) of that column's non-empty
tiles, and leaves no empty cell below a non-empty cell. -/
theorem c3_compact_column_preservation (g : Grid) (hg : g.length = GRID_HEIGHT) :
    ∀ c < GRID_WIDTH,
      getColumn (compact g) c = compactColumn (getColumn g c) ∧
      (getColumn (compact g) c).filterMap (fun x => x)
        = (getColumn g c).filterMap (fun x => x) ∧
      (∀ i j, i ≤ j → j < GRID_HEIGHT →
        (getColumn (compact g) c).getD i none ≠ none →
        (getColumn (compact g) c).getD j none ≠ none) := by
  intro c hc
  have hcol := getColumn_compact g c hg hc
  refine ⟨hcol, ?_, ?_⟩
  · rw [hcol]
    exact filterMap_compactColumn _
  · intro i j hij hj hi
    rw [hcol] at hi ⊢
    apply compactColumn_noGap _ i j hij _ hi
    rw [length_getColumn, hg]
    exact hj

/-- Witness for C3: the holey grid `sampleHoleyGrid`, column 0. -/
theorem c3_compact_column_preservation_witness :
    sampleHoleyGrid.length = GRID_HEIGHT ∧
    (getColumn (compact sampleHoleyGrid) 0 = compactColumn (getColumn sampleHoleyGrid 0) ∧
     (getColumn (compact sampleHoleyGrid) 0).filterMap (fun x => x)
       = (getColumn sampleHoleyGrid 0).filterMap (fun x => x) ∧
     (∀ i j, i ≤ j → j < GRID_HEIGHT →
       (getColumn (compact sampleHoleyGrid) 0).getD i none ≠ none →
       (getColumn (compact sampleHoleyGrid) 0).getD j none ≠ none)) :=
  ⟨by decide, c3_compact_column_preservation sampleHoleyGrid (by decide) 0 (by decide)⟩

/-- C4: compaction is idempotent on every 6-row grid (every grid the game
ever builds): `compact (compact g) = compact g`. -/
theorem c4_compact_idempotent (g : Grid) (hg : g.length = GRID_HEIGHT) :
    compact (compact g) = compact g := by
  apply compact_congr_columns
  intro c hc
  rw [getColumn_compact g c hg hc, compactColumn_idem]

/-- Witness for C4 at the concrete holey grid. -/
theorem c4_compact_idempotent_witness :
    sampleHoleyGrid.length = GRID_HEIGHT ∧
    compact (compact sampleHoleyGrid) = compact sampleHoleyGrid :=
  ⟨by decide, c4_compact_idempotent sampleHoleyGrid (by decide)⟩

/-! ### `checkSum` branch lemmas -/

theorem checkSum_clear_classic (tseed idBase : Nat) (seeds : List Nat) (st : GameState)
    (hm : st.mode = GameMode.CLASSIC)
    (hsum : selectionSum st.grid st.selected = st.target) :
    checkSum tseed idBase seeds st =
      { st with
        grid := (addRow idBase seeds (compact (removeSelected st.grid st.selected))).1
        isGameOver := st.isGameOver
          || (addRow idBase seeds (compact (removeSelected st.grid st.selected))).2
        score := st.score + st.selected.length * 10
        selected := []
        target := generateTarget tseed } := by
  simp only [checkSum, if_pos hsum, hm]

theorem checkSum_clear_time (tseed idBase : Nat) (seeds : List Nat) (st : GameState)
    (hm : st.mode = GameMode.TIME)
    (hsum : selectionSum st.grid st.selected = st.target) :
    checkSum tseed idBase seeds st =
      { st with
        grid := compact (removeSelected st.grid st.selected)
        score := st.score + st.selected.length * 10
        selected := []
        target := generateTarget tseed
        timeLeft := TIME_LIMIT } := by
  simp only [checkSum, if_pos hsum, hm]

theorem checkSum_overshoot (tseed idBase : Nat) (seeds : List Nat) (st : GameState)
    (hsum : selectionSum st.grid st.selected > st.target) :
    checkSum tseed idBase seeds st = { st with selected := [] } := by
  have hne : ¬(selectionSum st.grid st.selected = st.target) := by omega
  simp only [checkSum, if_neg hne, if_pos hsum]

theorem checkSum_pending (tseed idBase : Nat) (seeds : List Nat) (st : GameState)
    (hsum : selectionSum st.grid st.selected < st.target) :
    checkSum tseed idBase seeds st = st := by
  have hne : ¬(selectionSum st.grid st.selected = st.target) := by omega
  have hng : ¬(selectionSum st.grid st.selected > st.target) := by omega
  simp only [checkSum, if_neg hne, if_neg hng]

/-- C2: when the selection sums exactly to the target, evaluation empties the
selection, adds `10 × |selection|` to the score, and the pre-compaction grid
has exactly the selected cells removed and every other cell unchanged. -/
theorem c2_clear_exact (tseed idBase : Nat) (seeds : List Nat) (st : GameState)
    (hg : st.grid.length = GRID_HEIGHT) (hw : ∀ row ∈ st.grid, row.length = GRID_WIDTH)
    (hsum : selectionSum st.grid st.selected = st.target) :
    (checkSum tseed idBase seeds st).selected = [] ∧
    (checkSum tseed idBase seeds st).score = st.score + st.selected.length * 10 ∧
    (∀ r < GRID_HEIGHT, ∀ c < GRID_WIDTH,
      getCell (removeSelected st.grid st.selected) r c =
        if (r, c) ∈ st.selected then none else getCell st.grid r c) := by
  refine ⟨?_, ?_, ?_⟩
  · cases hm : st.mode
    · rw [checkSum_clear_classic tseed idBase seeds st hm hsum]
    · rw [checkSum_clear_time tseed idBase seeds st hm hsum]
  · cases hm : st.mode
    · rw [checkSum_clear_classic tseed idBase seeds st hm hsum]
    · rw [checkSum_clear_time tseed idBase seeds st hm hsum]
  · intro r hr c hc
    apply getCell_removeSelected
    · rw [hg]
      exact hr
    · rw [rowLen_of_dims st.grid hg hw r hr]
      exact hc

/-- Witness for C2: in `sampleState` the selection `[(3,0), (4,0)]` has values
4 and 5, summing to the target 9. -/
theorem c2_clear_exact_witness :
    selectionSum sampleState.grid sampleState.selected = sampleState.target ∧
    ((checkSum 3 100 [0, 1, 2, 3, 4, 5] sampleState).selected = [] ∧
     (checkSum 3 100 [0, 1, 2, 3, 4, 5] sampleState).score
       = sampleState.score + sampleState.selected.length * 10 ∧
     (∀ r < GRID_HEIGHT, ∀ c < GRID_WIDTH,
       getCell (removeSelected sampleState.grid sampleState.selected) r c =
         if (r, c) ∈ sampleState.selected then none else getCell sampleState.grid r c)) :=
  ⟨by decide,
    c2_clear_exact 3 100 [0, 1, 2, 3, 4, 5] sampleState (by decide) (by decide) (by decide)⟩

/-- C5: when the selection sums to strictly more than the target, evaluation
leaves the grid, the score and the target unchanged, and (after the feedback
delay) the selection becomes empty. -/
theorem c5_overshoot_frame (tseed idBase : Nat) (seeds : List Nat) (st : GameState)
    (hsum : selectionSum st.grid st.selected > st.target) :
    (checkSum tseed idBase seeds st).grid = st.grid ∧
    (checkSum tseed idBase seeds st).score = st.score ∧
    (checkSum tseed idBase seeds st).target = st.target ∧
    (checkSum tseed idBase seeds st).selected = [] := by
  rw [checkSum_overshoot tseed idBase seeds st hsum]
  exact ⟨rfl, rfl, rfl, rfl⟩

/-- Witness for C5: `sampleState` with target lowered to 5, so the selection
sum 9 overshoots. -/
theorem c5_overshoot_frame_witness :
    selectionSum { sampleState with target := 5 }.grid { sampleState with target := 5 }.selected
      > { sampleState with target := 5 }.target ∧
    ((checkSum 3 100 [] { sampleState with target := 5 }).grid
       = { sampleState with target := 5 }.grid ∧
     (checkSum 3 100 [] { sampleState with target := 5 }).score
       = { sampleState with target := 5 }.score ∧
     (checkSum 3 100 [] { sampleState with target := 5 }).target
       = { sampleState with target := 5 }.target ∧
     (checkSum 3 100 [] { sampleState with target := 5 }).selected = []) :=
  ⟨by decide, c5_overshoot_frame 3 100 [] { sampleState with target := 5 } (by decide)⟩

/-- C7: in TIME mode, while Active and unpaused, an ordinary tick strictly
decreases the remaining time (by exactly one) without touching the grid; a
tick with `timeLeft ≤ 1` is a timer firing, which performs one row injection
and resets the clock to the full period `TIME_LIMIT = 15`; and every
successful clear also resets the clock to `TIME_LIMIT`. -/
theorem c7_timed_timer (tseed idBase : Nat) (seeds : List Nat) (st : GameState)
    (hm : st.mode = GameMode.TIME) (hov : st.isGameOver = false) (hp : st.isPaused = false) :
    TIME_LIMIT = 15 ∧
    (1 < st.timeLeft →
      (tick idBase seeds st).timeLeft = st.timeLeft - 1 ∧
      (tick idBase seeds st).timeLeft < st.timeLeft ∧
      (tick idBase seeds st).grid = st.grid) ∧
    (st.timeLeft ≤ 1 →
      (tick idBase seeds st).timeLeft = TIME_LIMIT ∧
      (tick idBase seeds st).grid = (addRow idBase seeds st.grid).1) ∧
    (selectionSum st.grid st.selected = st.target →
      (checkSum tseed idBase seeds st).timeLeft = TIME_LIMIT) := by
  have hcond : st.mode = GameMode.TIME ∧ st.isGameOver = false ∧ st.isPaused = false :=
    ⟨hm, hov, hp⟩
  refine ⟨rfl, ?_, ?_, ?_⟩
  · intro h1
    have hn : ¬(st.timeLeft ≤ 1) := by omega
    unfold tick
    rw [if_pos hcond, if_neg hn]
    refine ⟨rfl, ?_, rfl⟩
    show st.timeLeft - 1 < st.timeLeft
    omega
  · intro h1
    unfold tick
    rw [if_pos hcond, if_pos h1]
    exact ⟨rfl, rfl⟩
  · intro hsum
    rw [checkSum_clear_time tseed idBase seeds st hm hsum]

/-- Witness for C7 at `sampleTimeState` (TIME mode, Active, 7 seconds left). -/
theorem c7_timed_timer_witness :
    (sampleTimeState.mode = GameMode.TIME ∧ sampleTimeState.isGameOver = false ∧
     sampleTimeState.isPaused = false ∧ 1 < sampleTimeState.timeLeft) ∧
    (TIME_LIMIT = 15 ∧
     (1 < sampleTimeState.timeLeft →
       (tick 100 [0, 1, 2, 3, 4, 5] sampleTimeState).timeLeft = sampleTimeState.timeLeft - 1 ∧
       (tick 100 [0, 1, 2, 3, 4, 5] sampleTimeState).timeLeft < sampleTimeState.timeLeft ∧
       (tick 100 [0, 1, 2, 3, 4, 5] sampleTimeState).grid = sampleTimeState.grid) ∧
     (sampleTimeState.timeLeft ≤ 1 →
       (tick 100 [0, 1, 2, 3, 4, 5] sampleTimeState).timeLeft = TIME_LIMIT ∧
       (tick 100 [0, 1, 2, 3, 4, 5] sampleTimeState).grid
         = (addRow 100 [0, 1, 2, 3, 4, 5] sampleTimeState.grid).1) ∧
     (selectionSum sampleTimeState.grid sampleTimeState.selected = sampleTimeState.target →
       (checkSum 3 100 [0, 1, 2, 3, 4, 5] sampleTimeState).timeLeft = TIME_LIMIT)) :=
  ⟨⟨by decide, by decide, by decide, by decide⟩,
    c7_timed_timer 3 100 [0, 1, 2, 3, 4, 5] sampleTimeState (by decide) (by decide) (by decide)⟩

/-- C8: in CLASSIC mode, a successful clear always (with no condition on the
resulting grid) invokes one row injection on the post-compaction grid, and the
wall-clock tick is the identity (no timer runs in CLASSIC mode). -/
theorem c8_classic_inject (tseed idBase : Nat) (seeds : List Nat) (st : GameState)
    (hm : st.mode = GameMode.CLASSIC) :
    (selectionSum st.grid st.selected = st.target →
      (checkSum tseed idBase seeds st).grid =
        (addRow idBase seeds (compact (removeSelected st.grid st.selected))).1 ∧
      (checkSum tseed idBase seeds st).isGameOver =
        (st.isGameOver
          || (addRow idBase seeds (compact (removeSelected st.grid st.selected))).2)) ∧
    tick idBase seeds st = st := by
  constructor
  · intro hsum
    rw [checkSum_clear_classic tseed idBase seeds st hm hsum]
    exact ⟨rfl, rfl⟩
  · unfold tick
    rw [if_neg (by simp [hm])]

/-- Witness for C8 at the CLASSIC state `sampleState`. -/
theorem c8_classic_inject_witness :
    (sampleState.mode = GameMode.CLASSIC ∧
     selectionSum sampleState.grid sampleState.selected = sampleState.target) ∧
    ((checkSum 3 100 [0, 1, 2, 3, 4, 5] sampleState).grid =
       (addRow 100 [0, 1, 2, 3, 4, 5]
         (compact (removeSelected sampleState.grid sampleState.selected))).1 ∧
     (checkSum 3 100 [0, 1, 2, 3, 4, 5] sampleState).isGameOver =
       (sampleState.isGameOver
         || (addRow 100 [0, 1, 2, 3, 4, 5]
              (compact (removeSelected sampleState.grid sampleState.selected))).2)) ∧
    tick 100 [0, 1, 2, 3, 4, 5] sampleState = sampleState :=
  ⟨⟨by decide, by decide⟩,
    (c8_classic_inject 3 100 [0, 1, 2, 3, 4, 5] sampleState (by decide)).1 (by decide),
    (c8_classic_inject 3 100 [0, 1, 2, 3, 4, 5] sampleState (by decide)).2⟩

/-- C9: every generated target lies in `[TARGET_MIN, TARGET_MAX] = [10, 25]`;
a successful clear regenerates the target, while an overshoot or a pending
(under-target) selection leaves it unchanged. -/
theorem c9_target_regeneration (tseed idBase : Nat) (seeds : List Nat) (st : GameState) :
    (TARGET_MIN = 10 ∧ TARGET_MAX = 25) ∧
    (TARGET_MIN ≤ generateTarget tseed ∧ generateTarget tseed ≤ TARGET_MAX) ∧
    (selectionSum st.grid st.selected = st.target →
      (checkSum tseed idBase seeds st).target = generateTarget tseed) ∧
    (selectionSum st.grid st.selected > st.target →
      (checkSum tseed idBase seeds st).target = st.target) ∧
    (selectionSum st.grid st.selected < st.target →
      (checkSum tseed idBase seeds st).target = st.target) := by
  refine ⟨⟨rfl, rfl⟩, generateTarget_range tseed, ?_, ?_, ?_⟩
  · intro hsum
    cases hm : st.mode
    · rw [checkSum_clear_classic tseed idBase seeds st hm hsum]
    · rw [checkSum_clear_time tseed idBase seeds st hm hsum]
  · intro hsum
    rw [checkSum_overshoot tseed idBase seeds st hsum]
  · intro hsum
    rw [checkSum_pending tseed idBase seeds st hsum]

/-- Witness for C9: a clear in `sampleState` with target seed 3 yields the
regenerated target `generateTarget 3`. -/
theorem c9_target_regeneration_witness :
    selectionSum sampleState.grid sampleState.selected = sampleState.target ∧
    (checkSum 3 100 [0, 1, 2, 3, 4, 5] sampleState).target = generateTarget 3 :=
  ⟨by decide,
    (c9_target_regeneration 3 100 [0, 1, 2, 3, 4, 5] sampleState).2.2.1 (by decide)⟩

/-- C6 counterexample: at the Active concrete state `sampleState`, toggling
`(6, 0)` — a row index out of the 6-row grid's bounds — is not a silent
no-op: `grid[6]` is `undefined`, so `grid[6][0]` throws a `TypeError`
(modelled by the `none` result), contradicting the claim that any
out-of-bounds toggle changes no state and raises no error. -/
theorem c6_toggle_noop_counterexample :
    sampleState.isGameOver = false ∧ sampleState.isPaused = false ∧
    handleBlockClick sampleState 6 0 = none ∧
    handleBlockClick sampleState 6 0 ≠ some sampleState := by
  decide

/-- C6 (amended): toggling while the status is not Active is a silent no-op;
toggling an in-range row with an empty cell (including a column index out of
bounds, which reads as `undefined`) is a silent no-op; but toggling a row
index out of the grid's bounds while Active raises a `TypeError` (modelled
as `none`) instead of being a no-op. -/
theorem c6_toggle_noop_amended (st : GameState) (r c : Nat) :
    (st.isGameOver = true ∨ st.isPaused = true → handleBlockClick st r c = some st) ∧
    (st.isGameOver = false → st.isPaused = false → r < st.grid.length →
      getCell st.grid r c = none → handleBlockClick st r c = some st) ∧
    (st.isGameOver = false → st.isPaused = false → st.grid.length ≤ r →
      handleBlockClick st r c = none) := by
  refine ⟨?_, ?_, ?_⟩
  · intro h
    unfold handleBlockClick
    rcases h with h | h <;> rw [h] <;> simp
  · intro h1 h2 hr hcell
    unfold handleBlockClick
    unfold getCell at hcell
    have hrow : st.grid[r]? = some (st.grid.getD r []) := by
      rw [List.getD_eq_getElem _ _ hr]
      exact List.getElem?_eq_getElem hr
    rw [h1, h2, if_neg (by simp)]
    simp only [hrow, hcell]
  · intro h1 h2 hr
    unfold handleBlockClick
    have hrow : st.grid[r]? = none := List.getElem?_eq_none hr
    rw [h1, h2, if_neg (by simp)]
    simp only [hrow]

/-- Witness for C6 (amended): at `sampleState`, toggling the empty in-range
cell `(0, 0)` is a silent no-op, and toggling the out-of-range row 6 errors. -/
theorem c6_toggle_noop_amended_witness :
    getCell sampleState.grid 0 0 = none ∧
    handleBlockClick sampleState 0 0 = some sampleState ∧
    handleBlockClick sampleState 6 0 = none :=
  ⟨by decide,
    (c6_toggle_noop_amended sampleState 0 0).2.1 (by decide) (by decide) (by decide) (by decide),
    (c6_toggle_noop_amended sampleState 6 0).2.2 (by decide) (by decide) (by decide)⟩

/-- C10: `startGame` always yields a 6×6 grid whose top
`GRID_HEIGHT - INITIAL_ROWS = 3` rows are entirely empty and whose bottom
`INITIAL_ROWS = 3` rows are fully populated with tiles valued in `[1, 9]`,
together with score 0, empty selection, full clock and Active status — and
therefore the first row injection of a fresh game never signals game-over. -/
theorem c10_startGame_fresh (m : GameMode) (idOf vOf : Nat → Nat → Nat)
    (tseed idBase : Nat) (seeds : List Nat) :
    (startGame m idOf vOf tseed).grid.length = GRID_HEIGHT ∧
    (∀ row ∈ (startGame m idOf vOf tseed).grid, row.length = GRID_WIDTH) ∧
    (∀ r < GRID_HEIGHT - INITIAL_ROWS, ∀ c < GRID_WIDTH,
      getCell (startGame m idOf vOf tseed).grid r c = none) ∧
    (∀ r, GRID_HEIGHT - INITIAL_ROWS ≤ r → r < GRID_HEIGHT → ∀ c < GRID_WIDTH,
      ∃ b : Block, getCell (startGame m idOf vOf tseed).grid r c = some b ∧
        NUMBER_MIN ≤ b.value ∧ b.value ≤ NUMBER_MAX) ∧
    (startGame m idOf vOf tseed).score = 0 ∧
    (startGame m idOf vOf tseed).selected = [] ∧
    (startGame m idOf vOf tseed).timeLeft = TIME_LIMIT ∧
    (startGame m idOf vOf tseed).isGameOver = false ∧
    (startGame m idOf vOf tseed).isPaused = false ∧
    (addRow idBase seeds (startGame m idOf vOf tseed).grid).2 = false := by
  have e1 : GRID_HEIGHT = 6 := rfl
  have e2 : INITIAL_ROWS = 3 := rfl
  have hgrid : (startGame m idOf vOf tseed).grid = initGrid idOf vOf := rfl
  have hempty : ∀ r < GRID_HEIGHT - INITIAL_ROWS, ∀ c < GRID_WIDTH,
      getCell (initGrid idOf vOf) r c = none := by
    intro r hr c hc
    rw [getCell_initGrid idOf vOf r c (by omega) hc, if_neg (by omega)]
  refine ⟨?_, ?_, ?_, ?_, rfl, rfl, rfl, rfl, rfl, ?_⟩
  · rw [hgrid, length_initGrid]
  · rw [hgrid]
    exact rowLen_initGrid idOf vOf
  · rw [hgrid]
    exact hempty
  · intro r hr1 hr2 c hc
    rw [hgrid, getCell_initGrid idOf vOf r c hr2 hc, if_pos hr1]
    exact ⟨_, rfl, (generateValue_range _).1, (generateValue_range _).2⟩
  · have hany : ¬(((initGrid idOf vOf).headD []).any (fun cell => cell.isSome) = true) := by
      intro h
      obtain ⟨c, hc, hne⟩ := (row0_any_iff (initGrid idOf vOf)
        (length_initGrid idOf vOf) (rowLen_initGrid idOf vOf)).mp h
      exact hne (hempty 0 (by omega) c hc)
    rw [hgrid, addRow_not_over idBase seeds _ (Bool.eq_false_iff.mpr hany)]

/-- Witness for C10 at a concrete fresh TIME-mode game. -/
theorem c10_startGame_fresh_witness :
    getCell (startGame GameMode.TIME (fun r c => 6 * r + c) (fun r c => r + c) 0).grid 0 0
      = none ∧
    (addRow 100 [0, 1, 2, 3, 4, 5]
      (startGame GameMode.TIME (fun r c => 6 * r + c) (fun r c => r + c) 0).grid).2 = false := by
  have h := c10_startGame_fresh GameMode.TIME (fun r c => 6 * r + c) (fun r c => r + c)
    0 100 [0, 1, 2, 3, 4, 5]
  exact ⟨h.2.2.1 0 (by decide) 0 (by decide), h.2.2.2.2.2.2.2.2.2⟩

end SumGame
